import Mathlib

/-!
Shallow embedding of src/UserManage/UserRepository.py.

The Python module defines a User entity with validating property setters,
a UserRepoMapper translating between User objects and flat records, and a
generic Repository executing SQL statements against a sqlite table.  Here
the dynamic Python values are modelled by the inductive Value, records by
association lists, the sqlite table by a list of records in scan order,
and each repository method by a pure function that returns its result, the
post-state of the table, and the trace of connection/statement events it
performed.
-/

set_option autoImplicit false

/-- Model of the Python scalar values that flow through this module:
strings, ints and floats.  Finite Python floats are modelled as rationals
(claims exercise values such as 2.5); NaN and infinities do not occur in
any claim and are not modelled. -/
inductive Value where
  | str : String → Value
  | int : ℤ → Value
  | real : ℚ → Value
deriving DecidableEq

/-- A numeric Python value (int or float), the values the user_type field
can hold after a successful assignment (line 119 of the source compares
with < and >, which succeeds exactly on numbers). -/
inductive PyNum where
  | int : ℤ → PyNum
  | real : ℚ → PyNum
deriving DecidableEq

/-- Re-embedding of a PyNum as a Value. -/
def PyNum.toValue : PyNum → Value
  | .int n => .int n
  | .real q => .real q

/-- The numeric content of a PyNum, used to state range facts. -/
def PyNum.toRat : PyNum → ℚ
  | .int n => (n : ℚ)
  | .real q => q

/-- Python exceptions raised by the embedded code: ValueError with its
message (raised by the validating setters and by ipaddress.ip_address),
TypeError (raised by re.match on a non-string and by comparing a string
with an int), and KeyError for a missing record key. -/
inductive PyErr where
  | valueError : String → PyErr
  | typeError : PyErr
  | keyError : String → PyErr
deriving DecidableEq

/-- Word character of the regex class backslash-w restricted to ASCII:
letters, digits and underscore.  (Python re is Unicode-aware; every string
appearing in the module and its claims is ASCII.) -/
def isWordChar (c : Char) : Bool := c.isAlphanum || c = '_'

/-- Character admitted by the bracket class of the email regex: word
characters, dot and hyphen. -/
def isLocalChar (c : Char) : Bool := isWordChar c || c = '.' || c = '-'

/-- Splits a character list at the first occurrence of c, returning the
pieces before and after it, or none when c does not occur. -/
def splitFirst (c : Char) : List Char → Option (List Char × List Char)
  | [] => none
  | x :: xs =>
    if x = c then some ([], xs)
    else
      match splitFirst c xs with
      | none => none
      | some p => some (x :: p.1, p.2)

/-- Recognises the domain half of the email regex, the fragment matching
one or more local characters, then a literal dot, then one or more word
characters: some split position carries a dot with a nonempty local-class
piece before it and a nonempty word-character piece after it. -/
def emailDomOk (dom : List Char) : Bool :=
  (List.range dom.length).any fun i =>
    decide (1 ≤ i) && decide (dom.getD i '@' = '.') && decide (i + 1 < dom.length) &&
    (dom.take i).all isLocalChar && (dom.drop (i + 1)).all isWordChar

/-- Whole-string match of the email regex of source line 95 without the
trailing-newline allowance: a nonempty run of local characters, an at
sign, and a domain as in emailDomOk.  The at sign occurs in no character
class, so splitting at the first at sign is exhaustive. -/
def emailCore (cs : List Char) : Bool :=
  match splitFirst '@' cs with
  | none => false
  | some p => !p.1.isEmpty && p.1.all isLocalChar && emailDomOk p.2

/-- Embedding of re.match applied to the email pattern of source line 95.
The dollar anchor of Python re also matches just before one newline at the
very end of the string, hence the second disjunct. -/
def emailOk (s : String) : Bool :=
  emailCore s.data || (decide (s.data.getLast? = some '\n') && emailCore s.data.dropLast)

/-- Decimal value of a digit list (the digits are validated separately). -/
def digitsVal (cs : List Char) : ℕ :=
  cs.foldl (fun a c => a * 10 + (c.toNat - 48)) 0

/-- Splits a character list on a separator character, Python str.split
with an explicit separator: the empty list yields one empty piece. -/
def splitOnChar (c : Char) : List Char → List (List Char)
  | [] => [[]]
  | x :: xs =>
    let r := splitOnChar c xs
    if x = c then [] :: r
    else
      match r with
      | [] => [[x]]
      | y :: ys => (x :: y) :: ys

/-- One dotted-quad octet as accepted by CPython ipaddress: nonempty, only
decimal digits, at most three of them, no leading zero, value at most
255. -/
def ipv4OctetOk (o : List Char) : Bool :=
  !o.isEmpty && o.all Char.isDigit && decide (o.length ≤ 3) &&
    !(decide (1 < o.length) && decide (o.headD 'x' = '0')) &&
    decide (digitsVal o ≤ 255)

/-- CPython IPv4Address acceptance of a string: exactly four octets
separated by dots, each as in ipv4OctetOk. -/
def ipv4Ok (cs : List Char) : Bool :=
  let parts := splitOnChar '.' cs
  decide (parts.length = 4) && parts.all ipv4OctetOk

/-- Hexadecimal digit as in the CPython ipaddress hextet alphabet. -/
def isHexDigitC (c : Char) : Bool :=
  c.isDigit || ('a' ≤ c && c ≤ 'f') || ('A' ≤ c && c ≤ 'F')

/-- One IPv6 hextet: one to four hexadecimal digits. -/
def hextetOk (h : List Char) : Bool :=
  !h.isEmpty && decide (h.length ≤ 4) && h.all isHexDigitC

/-- Indices of empty pieces strictly between the first and last piece of a
colon-split IPv6 address; at most one such index (the double colon) is
admissible. -/
def interiorEmpties (parts : List (List Char)) : List ℕ :=
  (List.range parts.length).filter fun i =>
    decide (1 ≤ i) && decide (i + 1 < parts.length) && decide (parts.getD i ['x'] = [])

/-- Validity of the colon-separated pieces of an IPv6 address after the
embedded-IPv4 substitution, following CPython ipaddress: at most nine
pieces; without a double colon exactly eight hextets; with one double
colon, a leading or trailing empty piece must itself be the double colon,
at most seven hextets remain, and the retained head and tail runs are
hextets. -/
def ipv6PartsOk (parts : List (List Char)) : Bool :=
  if 9 < parts.length then false
  else
    match interiorEmpties parts with
    | [] => decide (parts.length = 8) && parts.all hextetOk
    | [i] =>
      let n := parts.length
      let headEmpty := decide (parts.headD ['x'] = [])
      let lastEmpty := decide (parts.getLastD ['x'] = [])
      if headEmpty && !decide (i = 1) then false
      else if lastEmpty && !decide (i = n - 2) then false
      else
        let hi := if headEmpty then 0 else i
        let lo := if lastEmpty then 0 else n - i - 1
        decide (hi + lo ≤ 7) && (parts.take hi).all hextetOk &&
          (parts.drop (n - lo)).all hextetOk
    | _ => false

/-- CPython IPv6 address body (scope id already removed): at least three
colon-separated pieces; a last piece containing a dot must be a strict
IPv4 address and stands for two hextets. -/
def ipv6AddrOk (cs : List Char) : Bool :=
  let parts := splitOnChar ':' cs
  if parts.length < 3 then false
  else if (parts.getLastD []).contains '.' then
    ipv4Ok (parts.getLastD []) && ipv6PartsOk (parts.dropLast ++ [['0'], ['0']])
  else ipv6PartsOk parts

/-- CPython IPv6Address acceptance of a string: an optional scope id after
a percent sign (nonempty, itself free of percent signs) and a valid
address body. -/
def ipv6Ok (cs : List Char) : Bool :=
  match splitOnChar '%' cs with
  | [addr] => ipv6AddrOk addr
  | [addr, sc] => !sc.isEmpty && ipv6AddrOk addr
  | _ => false

/-- Embedding of ipaddress.ip_address on a string argument: a valid IPv4
or IPv6 literal (source line 108 calls it for its exception only). -/
def ipStrOk (s : String) : Bool := ipv4Ok s.data || ipv6Ok s.data

/-- Validation performed by the email setter (source lines 92 to 97):
re.match of the pattern, which raises TypeError on a non-string argument
and ValueError on a non-matching string. -/
def checkEmail : Value → Except PyErr String
  | .str s =>
    if emailOk s then .ok s else .error (.valueError "Invalid email format")
  | _ => .error .typeError

/-- Validation performed by the last_login_ip setter (source lines 104 to
109), ipaddress.ip_address applied to the value: a string must be an IPv4
or IPv6 literal; an int is accepted exactly below 2 to the 128; a float is
stringified by CPython and its decimal-point form never parses. -/
def checkIp : Value → Except PyErr Unit
  | .str s =>
    if ipStrOk s then .ok () else
      .error (.valueError "does not appear to be an IPv4 or IPv6 address")
  | .int n =>
    if 0 ≤ n ∧ n < 2 ^ 128 then .ok () else
      .error (.valueError "does not appear to be an IPv4 or IPv6 address")
  | .real _ => .error (.valueError "does not appear to be an IPv4 or IPv6 address")

/-- Validation performed by the user_type setter (source lines 116 to
121): comparing a string with an int raises TypeError in Python; a number
is rejected exactly when below one or above three, with no integrality
check. -/
def checkUserType : Value → Except PyErr PyNum
  | .str _ => .error .typeError
  | .int n => if n < 1 ∨ 3 < n then .error (.valueError "Invalid user type") else .ok (.int n)
  | .real q => if q < 1 ∨ 3 < q then .error (.valueError "Invalid user type") else .ok (.real q)

/-- The User entity of source lines 53 to 121, fields as stored by the
property setters.  The Entity base class contributes only the unvalidated
entity_uuid attribute and is folded into this structure.  user_name and
entity_uuid accept any value; email only ever holds a validated string;
last_login_ip holds the assigned value (string or int) after the
ip_address check; user_type holds the assigned number. -/
structure User where
  entity_uuid : Value
  user_name : Value
  email : String
  last_login_ip : Value
  user_type : PyNum
deriving DecidableEq

/-- The user_name setter (source lines 82 to 85): no validation, the
value is stored as given.  All setters return the optional exception they
raise together with the object after the assignment; a raising setter
returns the object unchanged, since the Python setters raise before the
backing attribute is written. -/
def User.setUserName (u : User) (v : Value) : Option PyErr × User :=
  (none, { u with user_name := v })

/-- The email setter (source lines 92 to 97). -/
def User.setEmail (u : User) (v : Value) : Option PyErr × User :=
  match checkEmail v with
  | .ok s => (none, { u with email := s })
  | .error e => (some e, u)

/-- The last_login_ip setter (source lines 104 to 109): the original
value is stored once ip_address accepts it. -/
def User.setLastLoginIp (u : User) (v : Value) : Option PyErr × User :=
  match checkIp v with
  | .ok _ => (none, { u with last_login_ip := v })
  | .error e => (some e, u)

/-- The user_type setter (source lines 116 to 121). -/
def User.setUserType (u : User) (v : Value) : Option PyErr × User :=
  match checkUserType v with
  | .ok t => (none, { u with user_type := t })
  | .error e => (some e, u)

/-- The User constructor (source lines 60 to 75): assigns uuid, then runs
the user_name, email, last_login_ip and user_type setters in order; the
first raising setter aborts the construction. -/
def User.make (uuid nm em ip ty : Value) : Except PyErr User :=
  match checkEmail em with
  | .error e => .error e
  | .ok es =>
    match checkIp ip with
    | .error e => .error e
    | .ok _ =>
      match checkUserType ty with
      | .error e => .error e
      | .ok t => .ok ⟨uuid, nm, es, ip, t⟩

/-- A storage record or mapper dictionary: an association of column names
to values.  Python dictionaries and sqlite3 rows have unique keys and a
lookup returns the binding of the key, which the first-binding lookup
below reproduces. -/
abbrev Record : Type := List (String × Value)

deriving instance DecidableEq for Except

/-- Dictionary or row subscript: the value bound to the key, if any. -/
def lookupCol : Record → String → Option Value
  | [], _ => none
  | kv :: rest, key => if kv.1 = key then some kv.2 else lookupCol rest key

/-- Subscript access that raises KeyError when the key is absent, as the
mapper's record subscripts do. -/
def getCol (r : Record) (k : String) : Except PyErr Value :=
  match lookupCol r k with
  | some v => .ok v
  | none => .error (.keyError k)

/-- SQL column assignment: replaces the binding of the key when present
and otherwise appends it (repository rows always carry their columns, so
the appending branch is a total-function completion). -/
def setCol (r : Record) (key : String) (v : Value) : Record :=
  if (lookupCol r key).isSome then
    r.map fun kv => if kv.1 = key then (key, v) else kv
  else r ++ [(key, v)]

/-- Applies a SET clause, left to right. -/
def setCols (sets : List (String × Value)) (r : Record) : Record :=
  sets.foldl (fun acc kv => setCol acc kv.1 kv.2) r

/-- The map_from_repo method of UserRepoMapper (source lines 180 to 196):
the five subscripts are evaluated in argument order, each able to raise
KeyError, and the User constructor then validates the values. -/
def UserRepoMapper.map_from_repo (r : Record) : Except PyErr User :=
  match getCol r "uuid" with
  | .error e => .error e
  | .ok uuid =>
    match getCol r "user_name" with
    | .error e => .error e
    | .ok nm =>
      match getCol r "email" with
      | .error e => .error e
      | .ok em =>
        match getCol r "last_login_ip" with
        | .error e => .error e
        | .ok ip =>
          match getCol r "user_type" with
          | .error e => .error e
          | .ok ty => User.make uuid nm em ip ty

/-- The map_to_repo method of UserRepoMapper (source lines 198 to 216):
the fixed five keys bound to the entity accessors, in source order. -/
def UserRepoMapper.map_to_repo (u : User) : Record :=
  [("uuid", u.entity_uuid), ("user_name", u.user_name), ("email", .str u.email),
   ("last_login_ip", u.last_login_ip), ("user_type", u.user_type.toValue)]

/-- The mapper capability: the two methods of the abstract RepoMapper
class (source lines 124 to 163). -/
structure RepoMapper (α : Type) where
  map_from_repo : Record → Except PyErr α
  map_to_repo : α → Record

/-- The concrete user mapper instance. -/
def userRepoMapper : RepoMapper User :=
  ⟨UserRepoMapper.map_from_repo, UserRepoMapper.map_to_repo⟩

/-- The single table behind a repository, rows in storage scan order. -/
structure DB where
  rows : List Record
deriving DecidableEq

/-- Row predicate of the WHERE uuid clause built by string interpolation
in the source: the uuid column holds exactly the interpolated string.
(The interpolated literal is compared textually; the uuid column is a
string primary key.) -/
def rowHasUuid (r : Record) (id : String) : Bool :=
  decide (lookupCol r "uuid" = some (Value.str id))

/-- Row predicate of the WHERE user_type clause of source line 445.  The
query quotes the integer, and sqlite converts the literal back to an
integer for a column with integer affinity, so the predicate is equality
with the integer. -/
def rowHasType (r : Record) (t : ℤ) : Bool :=
  decide (lookupCol r "user_type" = some (Value.int t))

/-- The statement shapes the repository methods build (the table name is
recorded for trace claims; the semantics acts on the repository's single
table). -/
inductive Stmt where
  | selectByUuid : String → String → Stmt
  | selectByUserType : String → ℤ → Stmt
  | updateRow : String → List (String × Value) → String → Stmt
  | softDeleteRow : String → String → Stmt
  | deleteRow : String → String → Stmt
deriving DecidableEq

/-- sqlite semantics of the statement shapes on the repository's table:
selects return the matching rows in scan order and leave the table
unchanged; updates rewrite every matching row; delete removes every
matching row. -/
def runStmt : Stmt → DB → DB × List Record
  | .selectByUuid _ id, db => (db, db.rows.filter fun r => rowHasUuid r id)
  | .selectByUserType _ t, db => (db, db.rows.filter fun r => rowHasType r t)
  | .updateRow _ sets id, db =>
    (⟨db.rows.map fun r => if rowHasUuid r id then setCols sets r else r⟩, [])
  | .softDeleteRow _ id, db =>
    (⟨db.rows.map fun r => if rowHasUuid r id then setCol r "deleted" (Value.int 1) else r⟩, [])
  | .deleteRow _ id, db => (⟨db.rows.filter fun r => !rowHasUuid r id⟩, [])

/-- Observable storage events of one repository method: opening a
connection, executing a statement, committing.  (Closing the connection
always follows and carries no information.) -/
inductive Ev where
  | conn : Ev
  | exec : Stmt → Ev
  | commit : Ev
deriving DecidableEq

/-- The generic repository of source lines 219 to 413: a table name and a
mapper. -/
structure Repository (α : Type) where
  table_name : String
  repo_mapper : RepoMapper α

/-- The fetch_one_by_uuid method (source lines 311 to 328): one
connection, one SELECT scoped to the uuid, fetchone takes the first
matching row in scan order; a missing row, and also a falsy zero-column
row, yield none, otherwise the row is mapped. -/
def Repository.fetch_one_by_uuid {α : Type} (repo : Repository α) (entity_uuid : String)
    (db : DB) : Except PyErr (Option α) × DB × List Ev :=
  let q := Stmt.selectByUuid repo.table_name entity_uuid
  let res := runStmt q db
  let out : Except PyErr (Option α) :=
    match res.2.head? with
    | none => .ok none
    | some r => if r.isEmpty then .ok none else Except.map some (repo.repo_mapper.map_from_repo r)
  (out, res.1, [Ev.conn, Ev.exec q])

/-- The soft_delete_one_by_uuid method (source lines 352 to 370): fetch
first; only when an entity came back, set the deleted flag for the uuid
and commit; the value returned is the pre-mutation fetch result. -/
def Repository.soft_delete_one_by_uuid {α : Type} (repo : Repository α) (entity_uuid : String)
    (db : DB) : Except PyErr (Option α) × DB × List Ev :=
  let f := repo.fetch_one_by_uuid entity_uuid db
  match f.1 with
  | .error e => (.error e, f.2.1, f.2.2)
  | .ok none => (.ok none, f.2.1, f.2.2)
  | .ok (some ent) =>
    let q := Stmt.softDeleteRow repo.table_name entity_uuid
    let res := runStmt q f.2.1
    (.ok (some ent), res.1, f.2.2 ++ [Ev.conn, Ev.exec q, Ev.commit])

/-- The delete_one_by_uuid method (source lines 372 to 390): same
presence check, then a hard DELETE scoped to the uuid. -/
def Repository.delete_one_by_uuid {α : Type} (repo : Repository α) (entity_uuid : String)
    (db : DB) : Except PyErr (Option α) × DB × List Ev :=
  let f := repo.fetch_one_by_uuid entity_uuid db
  match f.1 with
  | .error e => (.error e, f.2.1, f.2.2)
  | .ok none => (.ok none, f.2.1, f.2.2)
  | .ok (some ent) =>
    let q := Stmt.deleteRow repo.table_name entity_uuid
    let res := runStmt q f.2.1
    (.ok (some ent), res.1, f.2.2 ++ [Ev.conn, Ev.exec q, Ev.commit])

/-- The SET clause of update_one (source lines 402 to 405): every mapper
key except uuid, each bound to its dictionary value. -/
def updateSets (data : Record) : List (String × Value) :=
  ((data.map Prod.fst).filter fun k => decide (k ≠ "uuid")).map
    fun k => (k, (lookupCol data k).getD (Value.int 0))

/-- Python str() of a value as interpolated into f-string queries.  The
claims only exercise string uuids; int and float renderings are recorded
for totality (the rational rendering stands in for Python float repr). -/
def Value.pyStr : Value → String
  | .str s => s
  | .int n => toString n
  | .real q => toString q

/-- The update_one method (source lines 392 to 413): maps the entity,
updates the non-uuid columns of the rows matching the entity uuid,
commits, then re-fetches by the same uuid and returns that result.  The
uuidStrOf argument models the interpolation of entity.entity_uuid into
the query text. -/
def Repository.update_one {α : Type} (repo : Repository α) (uuidStrOf : α → String) (e : α)
    (db : DB) : Except PyErr (Option α) × DB × List Ev :=
  let data := repo.repo_mapper.map_to_repo e
  let sets := updateSets data
  let q := Stmt.updateRow repo.table_name sets (uuidStrOf e)
  let res := runStmt q db
  let f := repo.fetch_one_by_uuid (uuidStrOf e) res.1
  (f.1, f.2.1, [Ev.conn, Ev.exec q, Ev.commit] ++ f.2.2)

/-- The uuid text of a User as interpolated into queries. -/
def User.uuidStr (u : User) : String := u.entity_uuid.pyStr

/-- The UserRepository instance (source lines 426 to 433): table user
with the user mapper. -/
def userRepository : Repository User := ⟨"user", userRepoMapper⟩

/-- The fetch_users_by_user_type method (source lines 435 to 452): one
connection, one SELECT filtered on user_type, all fetched rows mapped in
order (a mapping failure propagates). -/
def UserRepository.fetch_users_by_user_type (t : ℤ) (db : DB) :
    Except PyErr (List User) × DB × List Ev :=
  let q := Stmt.selectByUserType userRepository.table_name t
  let res := runStmt q db
  (res.2.mapM userRepository.repo_mapper.map_from_repo, res.1, [Ev.conn, Ev.exec q])

/-- The record of the first fixture row of the source test suite. -/
def johnRec : Record :=
  [("uuid", .str "test-uuid-1"), ("user_name", .str "John Doe"),
   ("email", .str "john.doe@example.com"), ("last_login_ip", .str "192.168.1.1"),
   ("user_type", .int 1), ("deleted", .int 0)]

/-- The record of the second fixture row of the source test suite. -/
def janeRec : Record :=
  [("uuid", .str "test-uuid-2"), ("user_name", .str "Jane Doe"),
   ("email", .str "jane.doe@example.com"), ("last_login_ip", .str "192.168.1.2"),
   ("user_type", .int 1), ("deleted", .int 0)]

/-- The two-row fixture table of the fetch_users_by_user_type test. -/
def fixtureDb : DB := ⟨[johnRec, janeRec]⟩

/-- A second row carrying the same uuid as the first fixture row, for
exercising a scan with several matches. -/
def dupRec : Record :=
  [("uuid", .str "test-uuid-1"), ("user_name", .str "John Copy"),
   ("email", .str "copy@example.com"), ("last_login_ip", .str "192.168.1.9"),
   ("user_type", .int 2), ("deleted", .int 0)]

/-- The User entity of the first fixture row. -/
def johnUser : User :=
  ⟨.str "test-uuid-1", .str "John Doe", "john.doe@example.com", .str "192.168.1.1", .int 1⟩

/-- The User entity of the second fixture row. -/
def janeUser : User :=
  ⟨.str "test-uuid-2", .str "Jane Doe", "jane.doe@example.com", .str "192.168.1.2", .int 1⟩

/-- Success test of an Except, for stating when mapping succeeds. -/
def exceptOk {ε α : Type} : Except ε α → Bool
  | .ok _ => true
  | .error _ => false

/-- All five mapper keys present in a record. -/
def hasUserKeys (r : Record) : Bool :=
  (lookupCol r "uuid").isSome && (lookupCol r "user_name").isSome &&
    (lookupCol r "email").isSome && (lookupCol r "last_login_ip").isSome &&
    (lookupCol r "user_type").isSome

/-- The three validated values of a record pass entity validation (the
uuid and user_name values are never validated). -/
def userValsOk (r : Record) : Bool :=
  exceptOk (checkEmail ((lookupCol r "email").getD (Value.int 0))) &&
    exceptOk (checkIp ((lookupCol r "last_login_ip").getD (Value.int 0))) &&
    exceptOk (checkUserType ((lookupCol r "user_type").getD (Value.int 0)))

/-- A User all of whose stored fields pass their own validation again,
the image of a successful construction. -/
def User.ValidB (u : User) : Bool :=
  emailOk u.email && exceptOk (checkIp u.last_login_ip) &&
    exceptOk (checkUserType u.user_type.toValue)

theorem head_filter_sat {α : Type} (p : α → Bool) (l : List α) (x : α)
    (h : (l.filter p).head? = some x) : p x = true := by
  have hx : x ∈ l.filter p := by
    cases hfl : l.filter p with
    | nil => rw [hfl] at h; simp at h
    | cons a t =>
      rw [hfl] at h
      simp only [List.head?_cons, Option.some.injEq] at h
      exact List.mem_cons.mpr (Or.inl h.symm)
  exact (List.mem_filter.mp hx).2

theorem rowHasUuid_not_nil (r : Record) (id : String) (h : rowHasUuid r id = true) :
    r.isEmpty = false := by
  cases r with
  | nil => simp [rowHasUuid, lookupCol] at h
  | cons kv rest => simp [List.isEmpty]

theorem filter_nil_all_false {α : Type} (p : α → Bool) (l : List α)
    (h : l.filter p = []) : ∀ x ∈ l, p x = false := by
  intro x hx
  by_contra hpx
  have : x ∈ l.filter p := List.mem_filter.mpr ⟨hx, by revert hpx; cases p x <;> simp⟩
  rw [h] at this
  exact absurd this (List.not_mem_nil x)

theorem map_if_no_match {α : Type} (p : α → Bool) (f : α → α) (l : List α)
    (h : l.filter p = []) : (l.map fun x => if p x then f x else x) = l := by
  induction l with
  | nil => rfl
  | cons a t ih =>
    have ha : p a = false := filter_nil_all_false p (a :: t) h a (List.mem_cons_self a t)
    have ht : t.filter p = [] := by
      rw [List.filter_cons, ha] at h
      simpa using h
    simp [ha, ih ht]

theorem lookupCol_map_set_ne (r : Record) (k1 : String) (v : Value) (k : String)
    (h : k ≠ k1) :
    lookupCol (r.map fun kv => if kv.1 = k1 then (k1, v) else kv) k = lookupCol r k := by
  induction r with
  | nil => rfl
  | cons kv rest ih =>
    obtain ⟨k0, v0⟩ := kv
    by_cases hk : k0 = k1
    · simp [lookupCol, hk, Ne.symm h, ih]
    · simp [lookupCol, hk, ih]

theorem lookupCol_append (r1 r2 : Record) (k : String) :
    lookupCol (r1 ++ r2) k =
      match lookupCol r1 k with
      | some v => some v
      | none => lookupCol r2 k := by
  induction r1 with
  | nil => simp [lookupCol]
  | cons kv rest ih =>
    by_cases hk : kv.1 = k
    · simp [lookupCol, hk]
    · simp [lookupCol, hk, ih]

theorem lookupCol_setCol_ne (r : Record) (k1 : String) (v : Value) (k : String)
    (h : k ≠ k1) : lookupCol (setCol r k1 v) k = lookupCol r k := by
  unfold setCol
  by_cases hs : (lookupCol r k1).isSome
  · rw [if_pos hs]
    exact lookupCol_map_set_ne r k1 v k h
  · rw [if_neg hs, lookupCol_append]
    cases hl : lookupCol r k with
    | some w => rfl
    | none => simp [lookupCol, Ne.symm h]

theorem lookupCol_setCols_notMem (sets : List (String × Value)) (r : Record) (k : String)
    (h : k ∉ sets.map Prod.fst) : lookupCol (setCols sets r) k = lookupCol r k := by
  induction sets generalizing r with
  | nil => rfl
  | cons kv rest ih =>
    simp only [List.map_cons, List.mem_cons] at h
    push_neg at h
    unfold setCols
    simp only [List.foldl_cons]
    rw [show (List.foldl (fun acc p => setCol acc p.1 p.2) (setCol r kv.1 kv.2) rest) =
          setCols rest (setCol r kv.1 kv.2) from rfl]
    rw [ih (setCol r kv.1 kv.2) h.2]
    exact lookupCol_setCol_ne r kv.1 kv.2 k h.1

theorem updateSets_no_uuid (data : Record) :
    "uuid" ∉ (updateSets data).map Prod.fst := by
  unfold updateSets
  rw [List.map_map]
  intro hmem
  simp only [List.mem_map, Function.comp] at hmem
  obtain ⟨k, hk, hk2⟩ := hmem
  have := (List.mem_filter.mp hk).2
  rw [hk2] at this
  simp at this

theorem checkEmail_ok_str (v : Value) (s : String) (h : checkEmail v = .ok s) :
    v = .str s ∧ emailOk s = true := by
  cases v with
  | str t =>
    by_cases he : emailOk t
    · simp only [checkEmail, if_pos he, Except.ok.injEq] at h
      subst h
      exact ⟨rfl, he⟩
    · simp [checkEmail, he] at h
  | int n => simp [checkEmail] at h
  | real q => simp [checkEmail] at h

theorem checkUserType_ok_toValue (v : Value) (t : PyNum) (h : checkUserType v = .ok t) :
    t.toValue = v := by
  cases v with
  | str s => simp [checkUserType] at h
  | int n =>
    by_cases hr : n < 1 ∨ 3 < n
    · simp [checkUserType, hr] at h
    · simp only [checkUserType, if_neg hr, Except.ok.injEq] at h
      rw [← h]
      rfl
  | real q =>
    by_cases hr : q < 1 ∨ 3 < q
    · simp [checkUserType, hr] at h
    · simp only [checkUserType, if_neg hr, Except.ok.injEq] at h
      rw [← h]
      rfl

theorem checkUserType_toValue_ok (n : PyNum) (h : exceptOk (checkUserType n.toValue) = true) :
    checkUserType n.toValue = .ok n := by
  cases n with
  | int m =>
    by_cases hc : m < 1 ∨ 3 < m
    · simp [PyNum.toValue, checkUserType, hc, exceptOk] at h
    · simp [PyNum.toValue, checkUserType, hc]
  | real q =>
    by_cases hc : q < 1 ∨ 3 < q
    · simp [PyNum.toValue, checkUserType, hc, exceptOk] at h
    · simp [PyNum.toValue, checkUserType, hc]

theorem exceptOk_make (uuid nm em ip ty : Value) :
    exceptOk (User.make uuid nm em ip ty) =
      (exceptOk (checkEmail em) && exceptOk (checkIp ip) && exceptOk (checkUserType ty)) := by
  cases h1 : checkEmail em with
  | error e => simp [User.make, h1, exceptOk]
  | ok s =>
    cases h2 : checkIp ip with
    | error e => simp [User.make, h1, h2, exceptOk]
    | ok v =>
      cases h3 : checkUserType ty with
      | error e => simp [User.make, h1, h2, h3, exceptOk]
      | ok t => simp [User.make, h1, h2, h3, exceptOk]

theorem make_ok_fields (uuid nm em ip ty : Value) (u : User)
    (h : User.make uuid nm em ip ty = .ok u) :
    u.entity_uuid = uuid ∧ u.user_name = nm ∧ Value.str u.email = em ∧
      u.last_login_ip = ip ∧ u.user_type.toValue = ty := by
  cases h1 : checkEmail em with
  | error e => simp [User.make, h1] at h
  | ok s =>
    cases h2 : checkIp ip with
    | error e => simp [User.make, h1, h2] at h
    | ok v =>
      cases h3 : checkUserType ty with
      | error e => simp [User.make, h1, h2, h3] at h
      | ok t =>
        simp only [User.make, h1, h2, h3, Except.ok.injEq] at h
        subst h
        refine ⟨rfl, rfl, ?_, rfl, ?_⟩
        · exact (checkEmail_ok_str em s h1).1.symm
        · exact checkUserType_ok_toValue ty t h3

example : UserRepoMapper.map_from_repo johnRec = .ok johnUser := by decide
example : UserRepoMapper.map_to_repo johnUser =
    [("uuid", .str "test-uuid-1"), ("user_name", .str "John Doe"),
     ("email", .str "john.doe@example.com"), ("last_login_ip", .str "192.168.1.1"),
     ("user_type", .int 1)] := by decide
example :
    UserRepository.fetch_users_by_user_type 1 fixtureDb =
      (.ok [johnUser, janeUser], fixtureDb,
        [Ev.conn, Ev.exec (Stmt.selectByUserType "user" 1)]) := by decide
example :
    (userRepository.soft_delete_one_by_uuid "missing" ⟨[]⟩).2.2 =
      [Ev.conn, Ev.exec (Stmt.selectByUuid "user" "missing")] := by decide
example : emailOk "john.doe@qt.com" = true := by decide

/-- C1 (counterexample): the claim that deleteOneByUuid and
softDeleteOneByUuid on a non-existent id open no database connection and
execute no statement is false for the code: on the empty store and the
absent id the result is none, yet the presence check itself opens a
connection and executes a SELECT, so the event trace is nonempty and
contains a connection opening for both operations. -/
theorem absent_id_delete_ops_open_connection_cx :
    (userRepository.soft_delete_one_by_uuid "missing" ⟨[]⟩).1 = .ok none ∧
    (userRepository.soft_delete_one_by_uuid "missing" ⟨[]⟩).2.2 =
      [Ev.conn, Ev.exec (Stmt.selectByUuid "user" "missing")] ∧
    Ev.conn ∈ (userRepository.soft_delete_one_by_uuid "missing" ⟨[]⟩).2.2 ∧
    Ev.conn ∈ (userRepository.delete_one_by_uuid "missing" ⟨[]⟩).2.2 := by
  decide

/-- C1 (amended): for every id with no matching row, deleteOneByUuid and
softDeleteOneByUuid return none and perform no storage mutation, and
beyond the presence-check fetch, which itself opens one connection and
executes one SELECT, no further connection is opened and no further
statement is executed: in particular there is no mutation statement and
no commit. -/
theorem absent_id_delete_ops_no_mutation_single_select {α : Type} (repo : Repository α)
    (id : String) (db : DB) (h : db.rows.filter (fun r => rowHasUuid r id) = []) :
    repo.soft_delete_one_by_uuid id db =
      (.ok none, db, [Ev.conn, Ev.exec (Stmt.selectByUuid repo.table_name id)]) ∧
    repo.delete_one_by_uuid id db =
      (.ok none, db, [Ev.conn, Ev.exec (Stmt.selectByUuid repo.table_name id)]) := by
  constructor <;>
    simp [Repository.soft_delete_one_by_uuid, Repository.delete_one_by_uuid,
      Repository.fetch_one_by_uuid, runStmt, h]

/-- C1 (witness): the amended theorem applied to the user repository, an
empty store and an absent id. -/
theorem absent_id_delete_ops_witness :
    ((⟨[]⟩ : DB).rows.filter (fun r => rowHasUuid r "missing") = []) ∧
    userRepository.soft_delete_one_by_uuid "missing" ⟨[]⟩ =
      (.ok none, ⟨[]⟩, [Ev.conn, Ev.exec (Stmt.selectByUuid "user" "missing")]) ∧
    userRepository.delete_one_by_uuid "missing" ⟨[]⟩ =
      (.ok none, ⟨[]⟩, [Ev.conn, Ev.exec (Stmt.selectByUuid "user" "missing")]) :=
  ⟨by decide,
   (absent_id_delete_ops_no_mutation_single_select userRepository "missing" ⟨[]⟩ (by decide)).1,
   (absent_id_delete_ops_no_mutation_single_select userRepository "missing" ⟨[]⟩ (by decide)).2⟩

/-- C10: fetchOneByUuid maps and returns the first row of the backing
scan that matches the id, regardless of how many further rows match: the
tail of the matching scan is arbitrary, there is no uniqueness check and
no error on several matches, and exactly one SELECT over one connection
is executed. -/
theorem fetch_one_by_uuid_first_row_law {α : Type} (repo : Repository α) (id : String)
    (db : DB) (r0 : Record) (rest : List Record)
    (h : db.rows.filter (fun r => rowHasUuid r id) = r0 :: rest) :
    repo.fetch_one_by_uuid id db =
      (Except.map some (repo.repo_mapper.map_from_repo r0), db,
        [Ev.conn, Ev.exec (Stmt.selectByUuid repo.table_name id)]) := by
  have hp : rowHasUuid r0 id = true :=
    head_filter_sat (fun r => rowHasUuid r id) db.rows r0 (by rw [h]; rfl)
  have hne : r0.isEmpty = false := rowHasUuid_not_nil r0 id hp
  simp [Repository.fetch_one_by_uuid, runStmt, h, hne]

/-- C10 (witness): a store holding two rows with the same uuid: the first
one is mapped and returned, with no error. -/
theorem fetch_one_by_uuid_first_row_witness :
    ((⟨[johnRec, dupRec]⟩ : DB).rows.filter (fun r => rowHasUuid r "test-uuid-1") =
      [johnRec, dupRec]) ∧
    userRepository.fetch_one_by_uuid "test-uuid-1" ⟨[johnRec, dupRec]⟩ =
      (.ok (some johnUser), ⟨[johnRec, dupRec]⟩,
        [Ev.conn, Ev.exec (Stmt.selectByUuid "user" "test-uuid-1")]) :=
  ⟨by decide, by
    have := fetch_one_by_uuid_first_row_law userRepository "test-uuid-1" ⟨[johnRec, dupRec]⟩
      johnRec [dupRec] (by decide)
    rw [this]
    decide⟩

/-- C5: on an id whose row is present (the first matching row of the scan
maps to an entity), softDeleteOneByUuid flips the deleted flag of the
matching rows and deleteOneByUuid removes them, both commit, and both
return the entity fetched before the mutation; the trace holds exactly
one SELECT, before the mutation, so there is no re-fetch: for the hard
delete the post-state no longer holds the row, yet the pre-deletion
snapshot is returned. -/
theorem present_id_delete_ops_pre_snapshot {α : Type} (repo : Repository α) (id : String)
    (db : DB) (r0 : Record) (ent : α)
    (h1 : (db.rows.filter fun r => rowHasUuid r id).head? = some r0)
    (h2 : repo.repo_mapper.map_from_repo r0 = .ok ent) :
    repo.soft_delete_one_by_uuid id db =
      (.ok (some ent),
        ⟨db.rows.map fun r => if rowHasUuid r id then setCol r "deleted" (Value.int 1) else r⟩,
        [Ev.conn, Ev.exec (Stmt.selectByUuid repo.table_name id), Ev.conn,
         Ev.exec (Stmt.softDeleteRow repo.table_name id), Ev.commit]) ∧
    repo.delete_one_by_uuid id db =
      (.ok (some ent), ⟨db.rows.filter fun r => !rowHasUuid r id⟩,
        [Ev.conn, Ev.exec (Stmt.selectByUuid repo.table_name id), Ev.conn,
         Ev.exec (Stmt.deleteRow repo.table_name id), Ev.commit]) := by
  have hp : rowHasUuid r0 id = true :=
    head_filter_sat (fun r => rowHasUuid r id) db.rows r0 h1
  have hne : r0.isEmpty = false := rowHasUuid_not_nil r0 id hp
  constructor <;>
    simp [Repository.soft_delete_one_by_uuid, Repository.delete_one_by_uuid,
      Repository.fetch_one_by_uuid, runStmt, h1, hne, h2, Except.map]

/-- C5 (witness): hard and soft deletion of the first fixture row by its
uuid return the pre-deletion snapshot. -/
theorem present_id_delete_ops_pre_snapshot_witness :
    ((fixtureDb.rows.filter fun r => rowHasUuid r "test-uuid-1").head? = some johnRec) ∧
    UserRepoMapper.map_from_repo johnRec = .ok johnUser ∧
    userRepository.soft_delete_one_by_uuid "test-uuid-1" fixtureDb =
      (.ok (some johnUser),
        ⟨fixtureDb.rows.map fun r =>
          if rowHasUuid r "test-uuid-1" then setCol r "deleted" (Value.int 1) else r⟩,
        [Ev.conn, Ev.exec (Stmt.selectByUuid "user" "test-uuid-1"), Ev.conn,
         Ev.exec (Stmt.softDeleteRow "user" "test-uuid-1"), Ev.commit]) ∧
    userRepository.delete_one_by_uuid "test-uuid-1" fixtureDb =
      (.ok (some johnUser), ⟨fixtureDb.rows.filter fun r => !rowHasUuid r "test-uuid-1"⟩,
        [Ev.conn, Ev.exec (Stmt.selectByUuid "user" "test-uuid-1"), Ev.conn,
         Ev.exec (Stmt.deleteRow "user" "test-uuid-1"), Ev.commit]) :=
  ⟨by decide, by decide,
   (present_id_delete_ops_pre_snapshot userRepository "test-uuid-1" fixtureDb johnRec johnUser
      (by decide) (by decide)).1,
   (present_id_delete_ops_pre_snapshot userRepository "test-uuid-1" fixtureDb johnRec johnUser
      (by decide) (by decide)).2⟩

/-- C6: updateOne builds its UPDATE from the mapped record with the uuid
column excluded from the SET clause, so no row's stored uuid ever
changes; and when no row matches the entity's id the write is a no-op on
the store, the re-fetch is still attempted (its connection and SELECT
appear in the trace after the commit), and the result is none. -/
theorem update_one_excludes_uuid_and_noop_on_missing {α : Type} (repo : Repository α)
    (uuidStrOf : α → String) (e : α) (db : DB) :
    (repo.update_one uuidStrOf e db).2.2 =
      [Ev.conn,
       Ev.exec (Stmt.updateRow repo.table_name
         (updateSets (repo.repo_mapper.map_to_repo e)) (uuidStrOf e)),
       Ev.commit, Ev.conn, Ev.exec (Stmt.selectByUuid repo.table_name (uuidStrOf e))] ∧
    "uuid" ∉ (updateSets (repo.repo_mapper.map_to_repo e)).map Prod.fst ∧
    (repo.update_one uuidStrOf e db).2.1.rows.map (fun r => lookupCol r "uuid") =
      db.rows.map (fun r => lookupCol r "uuid") ∧
    (db.rows.filter (fun r => rowHasUuid r (uuidStrOf e)) = [] →
      (repo.update_one uuidStrOf e db).2.1 = db ∧
        (repo.update_one uuidStrOf e db).1 = .ok none) := by
  refine ⟨?_, updateSets_no_uuid _, ?_, ?_⟩
  · simp [Repository.update_one, Repository.fetch_one_by_uuid, runStmt]
  · simp only [Repository.update_one, Repository.fetch_one_by_uuid, runStmt]
    rw [List.map_map]
    refine List.map_congr_left ?_
    intro r _
    by_cases hr : rowHasUuid r (uuidStrOf e)
    · simp only [Function.comp, hr, if_pos]
      exact lookupCol_setCols_notMem _ r "uuid" (updateSets_no_uuid _)
    · simp [Function.comp, hr]
  · intro h
    have hmap :
        (db.rows.map fun r =>
          if rowHasUuid r (uuidStrOf e) then
            setCols (updateSets (repo.repo_mapper.map_to_repo e)) r
          else r) = db.rows :=
      map_if_no_match _ _ db.rows h
    constructor <;>
      simp [Repository.update_one, Repository.fetch_one_by_uuid, runStmt, hmap, h]

/-- C6 (witness): the general theorem at the user repository with an
empty store: the SET clause omits uuid, the store is untouched and the
result is none, with the re-fetch still traced. -/
theorem update_one_excludes_uuid_witness :
    "uuid" ∉ (updateSets (userRepoMapper.map_to_repo johnUser)).map Prod.fst ∧
    ((⟨[]⟩ : DB).rows.filter (fun r => rowHasUuid r (johnUser.uuidStr)) = []) ∧
    (userRepository.update_one User.uuidStr johnUser ⟨[]⟩).2.1 = ⟨[]⟩ ∧
    (userRepository.update_one User.uuidStr johnUser ⟨[]⟩).1 = .ok none ∧
    (userRepository.update_one User.uuidStr johnUser ⟨[]⟩).2.2 =
      [Ev.conn,
       Ev.exec (Stmt.updateRow "user" (updateSets (userRepoMapper.map_to_repo johnUser))
         (johnUser.uuidStr)),
       Ev.commit, Ev.conn, Ev.exec (Stmt.selectByUuid "user" (johnUser.uuidStr))] :=
  ⟨(update_one_excludes_uuid_and_noop_on_missing userRepository User.uuidStr johnUser ⟨[]⟩).2.1,
   by decide,
   ((update_one_excludes_uuid_and_noop_on_missing userRepository User.uuidStr johnUser
      ⟨[]⟩).2.2.2 (by decide)).1,
   ((update_one_excludes_uuid_and_noop_on_missing userRepository User.uuidStr johnUser
      ⟨[]⟩).2.2.2 (by decide)).2,
   (update_one_excludes_uuid_and_noop_on_missing userRepository User.uuidStr johnUser ⟨[]⟩).1⟩

/-- C8: fetchUsersByUserType leaves the store unchanged, executes one
SELECT over one connection, and its result is exactly the rows of the
scan whose user_type column equals the given integer, mapped to User
entities in scan order; when no row matches the result is the empty list
and not an error; and on the two-row fixture of the source test suite it
returns exactly the two fixture Users in fixture order. -/
theorem fetch_users_by_user_type_law (t : ℤ) (db : DB) :
    (UserRepository.fetch_users_by_user_type t db).2.1 = db ∧
    (UserRepository.fetch_users_by_user_type t db).2.2 =
      [Ev.conn, Ev.exec (Stmt.selectByUserType "user" t)] ∧
    (UserRepository.fetch_users_by_user_type t db).1 =
      (db.rows.filter fun r => rowHasType r t).mapM UserRepoMapper.map_from_repo ∧
    ((db.rows.filter fun r => rowHasType r t) = [] →
      (UserRepository.fetch_users_by_user_type t db).1 = .ok []) ∧
    UserRepository.fetch_users_by_user_type 1 fixtureDb =
      (.ok [johnUser, janeUser], fixtureDb,
        [Ev.conn, Ev.exec (Stmt.selectByUserType "user" 1)]) := by
  refine ⟨rfl, rfl, rfl, ?_, by decide⟩
  intro h
  simp only [UserRepository.fetch_users_by_user_type, runStmt, userRepository, userRepoMapper]
  rw [h]
  rfl

/-- C8 (witness): the law applied at a type code matching no fixture row
yields the empty list without an error, and at type code one the two
fixture users. -/
theorem fetch_users_by_user_type_witness :
    ((fixtureDb.rows.filter fun r => rowHasType r 5) = []) ∧
    (UserRepository.fetch_users_by_user_type 5 fixtureDb).1 = .ok [] ∧
    UserRepository.fetch_users_by_user_type 1 fixtureDb =
      (.ok [johnUser, janeUser], fixtureDb,
        [Ev.conn, Ev.exec (Stmt.selectByUserType "user" 1)]) :=
  ⟨by decide, (fetch_users_by_user_type_law 5 fixtureDb).2.2.2.1 (by decide),
   (fetch_users_by_user_type_law 1 fixtureDb).2.2.2.2⟩

/-- C3: assignment of a string to a User's email stores the value exactly
when the string matches the embedded pattern of source line 95, the
caret, bracket class of word characters with dot and hyphen, at sign,
the same class, literal dot, word characters, dollar pattern with Python
match semantics; a non-matching string raises ValueError and the object
keeps its prior value. -/
theorem email_setter_regex_law (u : User) (s : String) :
    (emailOk s = true → User.setEmail u (.str s) = (none, { u with email := s })) ∧
    (emailOk s = false →
      User.setEmail u (.str s) = (some (PyErr.valueError "Invalid email format"), u)) := by
  constructor <;> intro h <;> simp [User.setEmail, checkEmail, h]

/-- C3 (witness): a matching address is stored exactly and the bare
string invalid is rejected, leaving the object unchanged. -/
theorem email_setter_regex_witness :
    emailOk "lee@example.com" = true ∧
    User.setEmail johnUser (.str "lee@example.com") =
      (none, { johnUser with email := "lee@example.com" }) ∧
    emailOk "invalid" = false ∧
    User.setEmail johnUser (.str "invalid") =
      (some (PyErr.valueError "Invalid email format"), johnUser) :=
  ⟨by decide, (email_setter_regex_law johnUser "lee@example.com").1 (by decide),
   by decide, (email_setter_regex_law johnUser "invalid").2 (by decide)⟩

/-- C9: the user_type setter rejects a numeric value exactly when it is
below one or above three and performs no integrality check: every
rational (Python float) value between one and three is accepted and
stored as given, and out-of-range values raise ValueError leaving the
object unchanged. -/
theorem user_type_setter_range_only (u : User) (q : ℚ) :
    (1 ≤ q ∧ q ≤ 3 →
      User.setUserType u (.real q) = (none, { u with user_type := .real q })) ∧
    (q < 1 ∨ 3 < q →
      User.setUserType u (.real q) = (some (PyErr.valueError "Invalid user type"), u)) := by
  constructor <;> intro h
  · have hn : ¬(q < 1 ∨ 3 < q) := by
      push_neg
      exact h
    simp [User.setUserType, checkUserType, hn]
  · simp [User.setUserType, checkUserType, h]

/-- C9 (witness): the non-integer value five halves is in range, the
assignment succeeds and five halves is stored as the user type. -/
theorem user_type_setter_range_witness :
    (1 ≤ (5 : ℚ) / 2 ∧ (5 : ℚ) / 2 ≤ 3) ∧
    User.setUserType johnUser (.real ((5 : ℚ) / 2)) =
      (none, { johnUser with user_type := .real ((5 : ℚ) / 2) }) :=
  ⟨by norm_num, (user_type_setter_range_only johnUser ((5 : ℚ) / 2)).1 (by norm_num)⟩

/-- C2: every assignment to each of the four User fields applies that
field's validation, identical to the one applied at construction: the
user_name setter accepts every value; for email, last_login_ip and
user_type a raising assignment leaves the object unchanged, a successful
assignment changes exactly that field to a value its check accepts; and
every field value accepted by the constructor is accepted again when
re-assigned to the constructed object. -/
theorem user_setters_validate_every_assignment (u : User) (v : Value) :
    (User.setUserName u v = (none, { u with user_name := v })) ∧
    ((User.setEmail u v).1.isSome = true → (User.setEmail u v).2 = u) ∧
    ((User.setEmail u v).1 = none → ∃ s, v = Value.str s ∧ emailOk s = true ∧
      (User.setEmail u v).2 = { u with email := s }) ∧
    ((User.setLastLoginIp u v).1.isSome = true → (User.setLastLoginIp u v).2 = u) ∧
    ((User.setLastLoginIp u v).1 = none → exceptOk (checkIp v) = true ∧
      (User.setLastLoginIp u v).2 = { u with last_login_ip := v }) ∧
    ((User.setUserType u v).1.isSome = true → (User.setUserType u v).2 = u) ∧
    ((User.setUserType u v).1 = none → ∃ t, checkUserType v = .ok t ∧
      (User.setUserType u v).2 = { u with user_type := t }) ∧
    (∀ uuid nm em ip ty u2, User.make uuid nm em ip ty = .ok u2 →
      User.setUserName u2 nm = (none, u2) ∧ User.setEmail u2 em = (none, u2) ∧
      User.setLastLoginIp u2 ip = (none, u2) ∧ User.setUserType u2 ty = (none, u2)) := by
  refine ⟨rfl, ?_, ?_, ?_, ?_, ?_, ?_, ?_⟩
  · intro h
    cases hc : checkEmail v with
    | ok s => simp [User.setEmail, hc] at h
    | error e => simp [User.setEmail, hc]
  · intro h
    cases hc : checkEmail v with
    | ok s =>
      obtain ⟨hv, he⟩ := checkEmail_ok_str v s hc
      exact ⟨s, hv, he, by simp [User.setEmail, hc]⟩
    | error e => simp [User.setEmail, hc] at h
  · intro h
    cases hc : checkIp v with
    | ok w => simp [User.setLastLoginIp, hc] at h
    | error e => simp [User.setLastLoginIp, hc]
  · intro h
    cases hc : checkIp v with
    | ok w => exact ⟨by simp [exceptOk, hc], by simp [User.setLastLoginIp, hc]⟩
    | error e => simp [User.setLastLoginIp, hc] at h
  · intro h
    cases hc : checkUserType v with
    | ok t => simp [User.setUserType, hc] at h
    | error e => simp [User.setUserType, hc]
  · intro h
    cases hc : checkUserType v with
    | ok t => exact ⟨t, rfl, by simp [User.setUserType, hc]⟩
    | error e => simp [User.setUserType, hc] at h
  · intro uuid nm em ip ty u2 hmk
    cases h1 : checkEmail em with
    | error e => simp [User.make, h1] at hmk
    | ok s =>
      cases h2 : checkIp ip with
      | error e => simp [User.make, h1, h2] at hmk
      | ok w =>
        cases h3 : checkUserType ty with
        | error e => simp [User.make, h1, h2, h3] at hmk
        | ok t =>
          simp only [User.make, h1, h2, h3, Except.ok.injEq] at hmk
          subst hmk
          exact ⟨rfl, by simp [User.setEmail, h1], by simp [User.setLastLoginIp, h2],
            by simp [User.setUserType, h3]⟩

/-- C2 (witness): on the constructed fixture user, a name assignment
always succeeds, an invalid email assignment leaves the object unchanged,
an out-of-range user type assignment leaves the object unchanged, and
re-assigning the construction-accepted email succeeds and changes
nothing. -/
theorem user_setters_validate_witness :
    User.setUserName johnUser (.str "Jerry") =
      (none, { johnUser with user_name := .str "Jerry" }) ∧
    (User.setEmail johnUser (.str "invalid")).2 = johnUser ∧
    (User.setUserType johnUser (.int 4)).2 = johnUser ∧
    User.setEmail johnUser (.str "john.doe@example.com") = (none, johnUser) :=
  ⟨(user_setters_validate_every_assignment johnUser (.str "Jerry")).1,
   (user_setters_validate_every_assignment johnUser (.str "invalid")).2.1 (by decide),
   (user_setters_validate_every_assignment johnUser (.int 4)).2.2.2.2.2.1 (by decide),
   ((user_setters_validate_every_assignment johnUser (.int 4)).2.2.2.2.2.2.2
      (.str "test-uuid-1") (.str "John Doe") (.str "john.doe@example.com")
      (.str "192.168.1.1") (.int 1) johnUser (by decide)).2.1⟩

/-- C4: the mapper round-trip law: for every User whose stored fields
pass their own validation again (the image of a successful
construction), map_from_repo after map_to_repo succeeds and rebuilds the
very same entity, so id, name, email, last-login address and user type
are all preserved. -/
theorem user_mapper_round_trip (u : User) (h : u.ValidB = true) :
    UserRepoMapper.map_from_repo (UserRepoMapper.map_to_repo u) = .ok u := by
  obtain ⟨uuid, nm, em, ip, ty⟩ := u
  simp only [User.ValidB, Bool.and_eq_true] at h
  obtain ⟨⟨h1, h2⟩, h3⟩ := h
  have hip : checkIp ip = .ok () := by
    cases hx : checkIp ip with
    | ok w => cases w; rfl
    | error e => rw [hx] at h2; simp [exceptOk] at h2
  have hty : checkUserType (PyNum.toValue ty) = .ok ty := checkUserType_toValue_ok ty h3
  simp [UserRepoMapper.map_from_repo, UserRepoMapper.map_to_repo, getCol, lookupCol,
    User.make, checkEmail, h1, hip, hty]

/-- C4 (witness): the round trip at the concrete fixture user. -/
theorem user_mapper_round_trip_witness :
    johnUser.ValidB = true ∧
    UserRepoMapper.map_from_repo (UserRepoMapper.map_to_repo johnUser) = .ok johnUser :=
  ⟨by decide, user_mapper_round_trip johnUser (by decide)⟩

/-- C7: map_from_repo succeeds exactly when all five fixed keys are
present and the email, last_login_ip and user_type values pass entity
validation (the uuid and user_name values are never validated), failing
otherwise with a KeyError or a propagated validation error; and on
success the constructed entity's fields are exactly the record's values
under the five keys. -/
theorem map_from_repo_error_law (r : Record) :
    (exceptOk (UserRepoMapper.map_from_repo r) = (hasUserKeys r && userValsOk r)) ∧
    (∀ u : User, UserRepoMapper.map_from_repo r = .ok u →
      lookupCol r "uuid" = some u.entity_uuid ∧
      lookupCol r "user_name" = some u.user_name ∧
      lookupCol r "email" = some (Value.str u.email) ∧
      lookupCol r "last_login_ip" = some u.last_login_ip ∧
      lookupCol r "user_type" = some u.user_type.toValue) := by
  constructor
  · cases hu : lookupCol r "uuid" with
    | none => simp [UserRepoMapper.map_from_repo, getCol, hasUserKeys, hu, exceptOk]
    | some vu =>
      cases hn : lookupCol r "user_name" with
      | none => simp [UserRepoMapper.map_from_repo, getCol, hasUserKeys, hu, hn, exceptOk]
      | some vn =>
        cases he : lookupCol r "email" with
        | none =>
          simp [UserRepoMapper.map_from_repo, getCol, hasUserKeys, hu, hn, he, exceptOk]
        | some ve =>
          cases hi : lookupCol r "last_login_ip" with
          | none =>
            simp [UserRepoMapper.map_from_repo, getCol, hasUserKeys, hu, hn, he, hi, exceptOk]
          | some vi =>
            cases ht : lookupCol r "user_type" with
            | none =>
              simp [UserRepoMapper.map_from_repo, getCol, hasUserKeys, hu, hn, he, hi, ht,
                exceptOk]
            | some vt =>
              simp [UserRepoMapper.map_from_repo, getCol, hasUserKeys, userValsOk, hu, hn,
                he, hi, ht, exceptOk_make, Bool.and_assoc]
  · intro u hmk
    cases hu : lookupCol r "uuid" with
    | none => simp [UserRepoMapper.map_from_repo, getCol, hu] at hmk
    | some vu =>
      cases hn : lookupCol r "user_name" with
      | none => simp [UserRepoMapper.map_from_repo, getCol, hu, hn] at hmk
      | some vn =>
        cases he : lookupCol r "email" with
        | none => simp [UserRepoMapper.map_from_repo, getCol, hu, hn, he] at hmk
        | some ve =>
          cases hi : lookupCol r "last_login_ip" with
          | none => simp [UserRepoMapper.map_from_repo, getCol, hu, hn, he, hi] at hmk
          | some vi =>
            cases ht : lookupCol r "user_type" with
            | none => simp [UserRepoMapper.map_from_repo, getCol, hu, hn, he, hi, ht] at hmk
            | some vt =>
              simp only [UserRepoMapper.map_from_repo, getCol, hu, hn, he, hi, ht] at hmk
              obtain ⟨f1, f2, f3, f4, f5⟩ := make_ok_fields vu vn ve vi vt u hmk
              exact ⟨by rw [f1], by rw [f2], by rw [f3], by rw [f4], by rw [f5]⟩

/-- C7 (witness): the law applied at the first fixture record, whose
keys are present and whose values validate, and the field equalities of
the successful construction. -/
theorem map_from_repo_error_law_witness :
    (exceptOk (UserRepoMapper.map_from_repo johnRec) =
      (hasUserKeys johnRec && userValsOk johnRec)) ∧
    (lookupCol johnRec "uuid" = some johnUser.entity_uuid ∧
      lookupCol johnRec "user_name" = some johnUser.user_name ∧
      lookupCol johnRec "email" = some (Value.str johnUser.email) ∧
      lookupCol johnRec "last_login_ip" = some johnUser.last_login_ip ∧
      lookupCol johnRec "user_type" = some johnUser.user_type.toValue) :=
  ⟨(map_from_repo_error_law johnRec).1,
   (map_from_repo_error_law johnRec).2 johnUser (by decide)⟩
example : emailOk "invalid" = false := by decide
example : emailOk "a@b.c\n" = true := by decide
example : emailOk "a@b.c\n\n" = false := by decide
example : emailOk "a@b..c" = true := by decide
example : emailOk "a@b" = false := by decide
example : ipStrOk "192.168.1.1" = true := by decide
example : ipStrOk "192.invalid" = false := by decide
example : ipStrOk "256.1.1.1" = false := by decide
example : ipStrOk "01.1.1.1" = false := by decide
example : ipStrOk "::1" = true := by decide
example : ipStrOk "::" = true := by decide
example : ipStrOk "1::2" = true := by decide
example : ipStrOk "1:2:3:4:5:6:7:8" = true := by decide
example : ipStrOk "1:2:3:4:5:6:7:8:9" = false := by decide
example : ipStrOk "1:2:3:4:5:6:7::" = true := by decide
example : ipStrOk "1:2:3:4:5:6:7:8::" = false := by decide
example : ipStrOk "::ffff:1.2.3.4" = true := by decide
example : ipStrOk "fe80::1%eth0" = true := by decide
example : ipStrOk "fe80::1%" = false := by decide
example : ipStrOk ":::" = false := by decide
example : ipStrOk "1:::2" = false := by decide
example : ipStrOk ":1:2:3:4:5:6:7" = false := by decide
